import Mathlib

/-! A verification development for a small resume-generation pipeline.

The pipeline loads a structured resume record, applies two stateless text
transforms (inline Markdown-link conversion and hyphen-to-en-dash
normalization of date fields), binds the record into a fixed HTML layout
template, writes the HTML file and then renders a PDF from the same HTML
string.  A separate watcher re-runs the pipeline on file-change
notifications, with a 0.5-second debounce window.

The definitions below are a shallow embedding of that code:

* `parse_markdown_links` embeds the Python function of the same name,
  `re.sub(r'\[([^\]]+)\]\(([^\)]+)\)', r'<a href="\2">\1</a>', text)`,
  as a left-to-right, non-overlapping scanner over the character list
  (`subLinksF`, driven by a fuel argument equal to the input length so that
  the recursion is structural).
* `convert_hyphens` embeds `text.replace('-', '–')`.
* `renderResume` embeds `Template(TEMPLATE).render(**data)` for the fixed
  template: the jinja2 environment has autoescaping off, so every
  substitution is plain string insertion; the literal segments between the
  template tags are reproduced byte for byte (`hdT`, `hT1`, ...), and the
  loops and conditionals of the template become list maps and `if`s over
  the record.  Braces in the literals are written `\x7b`/`\x7d`.
* `generate_resume` embeds the control flow of the Python driver over an
  `Env` of input/output oracles (does the input path exist, what the YAML
  parse yields, whether each output operation succeeds), recording the
  printed lines and file writes in a `RunTrace`.
* `ResumeHandler`/`on_modified` embed the watchdog handler, with time
  modelled as rationals.
-/

namespace ResumeGen

/-- `needle` occurs as a contiguous substring of `hay`. -/
def Substr (needle hay : String) : Prop :=
  needle.data <:+: hay.data

instance (n h : String) : Decidable (Substr n h) :=
  inferInstanceAs (Decidable (n.data <:+: h.data))

/-- Number of hyphen-minus characters in a string. -/
def hyphenCount (s : String) : Nat :=
  s.data.count '-'

/-- One match attempt of the regex `\[([^\]]+)\]\(([^\)]+)\)` at a position
whose `[` has just been consumed: `l` is the text after the `[`.  Returns
`some (label, target, rest)` when the regex matches, where `rest` is the text
after the closing `)`.  Since the character classes exclude the closing
delimiters, the greedy `+` matches are exactly the maximal
`takeWhile` runs, and both groups must be non-empty. -/
def tryLink (l : List Char) : Option (List Char × List Char × List Char) :=
  match l.dropWhile (fun c => c ≠ ']') with
  | ']' :: '(' :: r1 =>
    match r1.dropWhile (fun c => c ≠ ')') with
    | ')' :: r2 =>
      if l.takeWhile (fun c => c ≠ ']') = [] ∨ r1.takeWhile (fun c => c ≠ ')') = [] then
        none
      else
        some (l.takeWhile (fun c => c ≠ ']'), r1.takeWhile (fun c => c ≠ ')'), r2)
    | _ => none
  | _ => none

/-- The replacement text `r'<a href="\2">\1</a>'`. -/
def linkRepl (label target : List Char) : List Char :=
  "<a href=\"".data ++ target ++ "\">".data ++ label ++ "</a>".data

/-- The `re.sub` scan: left to right, non-overlapping; on a failed match
attempt the scan moves on by one character.  `fuel` bounds the recursion
(every step consumes at least one character, so `fuel = length` suffices;
see `subLinksF_fuel`). -/
def subLinksF : Nat → List Char → List Char
  | _, [] => []
  | 0, l => l
  | fuel + 1, c :: rest =>
    if c = '[' then
      match tryLink rest with
      | some (label, target, r2) => linkRepl label target ++ subLinksF fuel r2
      | none => c :: subLinksF fuel rest
    else c :: subLinksF fuel rest

/-- The full scan over a character list. -/
def subLinks (l : List Char) : List Char :=
  subLinksF l.length l

/-- Embeds `parse_markdown_links`: convert Markdown-style links
`[text](url)` to HTML `<a>` tags (empty input is returned unchanged). -/
def parse_markdown_links (text : String) : String :=
  if text = "" then text else String.mk (subLinks text.data)

/-- Embeds `convert_hyphens`: `text.replace('-', '–')`, i.e. every
hyphen-minus becomes an en dash and nothing else changes (empty input is
returned unchanged). -/
def convert_hyphens (text : String) : String :=
  if text = "" then text
  else String.mk (text.data.map (fun c => if c = '-' then '–' else c))

/-- One entry of `skills`.  `items` is optional in the data file: the
template reads it with `skill.get('items', [])`. -/
structure Skill where
  category : String
  items : Option (List String)
  deriving DecidableEq

/-- One role within an experience entry. -/
structure Role where
  title : String
  dates : String
  responsibilities : List String
  deriving DecidableEq

/-- One entry of `experience`. -/
structure Job where
  company : String
  location : String
  roles : List Role
  deriving DecidableEq

/-- One entry of `awards`; `team` and `description` are optional. -/
structure Award where
  name : String
  date : String
  organization : String
  team : Option String
  description : Option String
  deriving DecidableEq

/-- One entry of `education`; `gpa` and `coursework` are optional. -/
structure Education where
  degree : String
  institution : String
  graduation : String
  gpa : Option String
  coursework : Option (List String)
  deriving DecidableEq

/-- One entry of `projects`. -/
structure Project where
  name : String
  url : String
  technologies : List String
  description : String
  deriving DecidableEq

/-- The root record built from the YAML document. -/
structure Resume where
  name : String
  location : String
  email : String
  website : String
  skills : List Skill
  experience : List Job
  awards : List Award
  education : List Education
  projects : List Project
  deriving DecidableEq

/-- jinja2 truthiness of an optional text field: an absent field and an
empty string are both falsy. -/
def truthyS : Option String → Bool
  | none => false
  | some s => s != ""

/-- jinja2 truthiness of an optional list field: an absent field and an
empty list are both falsy. -/
def truthyL : Option (List String) → Bool
  | none => false
  | some l => !l.isEmpty

/-- Concatenation of the per-item renderings of a template loop. -/
def sjoin : List String → String
  | [] => ""
  | s :: rest => s ++ sjoin rest

/-- The item loop `{% for x in l %}{{ x }}{% if not loop.last %}, {% endif %}{% endfor %}`:
comma-plus-space between items, no trailing separator. -/
def joinComma : List String → String
  | [] => ""
  | [s] => s
  | s :: rest => s ++ ", " ++ joinComma rest

def hdT : String := "\n<!DOCTYPE html>\n<html>\n<head>\n    <meta charset=\"utf-8\">\n    <link rel=\"preconnect\" href=\"https://fonts.googleapis.com\">\n    <link rel=\"preconnect\" href=\"https://fonts.gstatic.com\" crossorigin>\n    <link href=\"https://fonts.googleapis.com/css2?family=Inter:wght@400;500;600;700&display=swap\" rel=\"stylesheet\">\n    <style>\n        @page \x7b\n            size: letter;\n            margin: 0.75in 0.75in;\n        \x7d\n        \n        * \x7b\n            margin: 0;\n            padding: 0;\n            box-sizing: border-box;\n        \x7d\n        \n        body \x7b\n            font-family: \"Helvetica Neue\", Helvetica, Arial, -apple-system, BlinkMacSystemFont, \"Segoe UI\", sans-serif;\n            font-size: 11pt;\n            line-height: 1.4;\n            color: #000;\n        \x7d\n        \n        .header \x7b\n            text-align: center;\n            margin-bottom: 8pt;\n        \x7d\n        \n        .header h1 \x7b\n            font-size: 16pt;\n            font-weight: 700;\n            margin-bottom: 2pt;\n            letter-spacing: 0.02em;\n        \x7d\n        \n        .header .contact \x7b\n            font-size: 11pt;\n            font-weight: 400;\n        \x7d\n        \n        .section \x7b\n            margin-bottom: 10pt;\n        \x7d\n        \n        .section-title \x7b\n            font-size: 11pt;\n            font-weight: 700;\n            text-transform: uppercase;\n            letter-spacing: 0.05em;\n            margin-bottom: 4pt;\n            padding-bottom: 2pt;\n            border-bottom: 0.5pt solid #000;\n        \x7d\n        \n        a \x7b\n            color: #000;\n            text-decoration: none;\n            border-bottom: 1px dotted #999;\n        \x7d\n        \n        a:hover \x7b\n            background-color: #f0f0f0;\n        \x7d\n        \n        /* --- SKILLS SECTION FIX --- */\n        .skills-list \x7b\n            /* Now an actual unordered list for proper bullet control */\n            list-style: disc;\n            /* Indent the whole list slightly for visual space */\n            margin-left: 10pt; \n            padding-left: 0;\n            list-style-position: outside; /* Ensure wrapped text aligns correctly */\n        \x7d\n        \n        .skill-item \x7b\n            margin-bottom: 3pt;\n            /* Using list-style takes care of the indent automatically */\n            margin-left: 10pt; \n            padding-left: 0;\n        \x7d\n        /* -------------------------- */\n        \n        .experience-item, .education-item, .project-item \x7b\n            margin-bottom: 8pt;\n        \x7d\n        \n        .company-header \x7b\n            display: flex;\n            justify-content: space-between;\n            align-items: baseline;\n            margin-bottom: 0pt;\n            font-weight: 600;\n        \x7d\n        \n        .company-name \x7b\n            font-weight: 600;\n        \x7d\n        \n        .company-dates \x7b\n            font-weight: 400;\n            font-style: italic;\n        \x7d\n        \n        .role-item \x7b\n            margin-left: 0;\n            margin-bottom: 4pt;\n        \x7d\n        \n        .role-header \x7b\n            display: flex;\n            justify-content: space-between;\n            align-items: baseline;\n            font-weight: 400;\n            margin-top: 1pt;\n        \x7d\n        \n        .role-dates \x7b\n            font-style: italic;\n            font-weight: 400;\n            font-size: 10pt;\n        \x7d\n        \n        .responsibilities \x7b\n            margin-left: 12pt;\n            margin-top: 1pt;\n        \x7d\n        \n        .responsibilities li \x7b\n            margin-bottom: 1pt;\n        \x7d\n        \n        .project-header \x7b\n            margin-bottom: 1pt;\n        \x7d\n        \n        .project-name \x7b\n            font-weight: 600;\n            display: inline;\n        \x7d\n        \n        .project-tech \x7b\n            font-style: italic;\n            display: inline;\n        \x7d\n        \n        .project-url \x7b\n            float: right;\n            font-style: italic;\n        \x7d\n        \n        .coursework \x7b\n            margin-left: 12pt;\n        \x7d\n        \n        .education-header \x7b\n            display: flex;\n            justify-content: space-between;\n            align-items: baseline;\n            margin-bottom: 1pt;\n        \x7d\n        \n        .institution \x7b\n            font-weight: 600;\n        \x7d\n        \n        .degree-line \x7b\n            margin-bottom: 1pt;\n        \x7d\n    </style>\n</head>\n<body>\n    <div class=\"header\">\n        <h1>"

def hT1 : String := "</h1>\n        <div class=\"contact\">"

def dashT1 : String := " — "

def dashT2 : String := " — "

def hT2 : String := "</div>\n    </div>\n    \n    <div class=\"section\">\n        <div class=\"section-title\">Skills</div>\n        <ul class=\"skills-list\">\n            "

def skT1 : String := "\n            <li class=\"skill-item\"><strong>"

def skT2 : String := ":</strong> "

def skT3 : String := "</li>\n            "

def skT4 : String := "\n        </ul>\n    </div>\n    \n    <div class=\"section\">\n        <div class=\"section-title\">Experience</div>\n        "

def exT1 : String := "\n        <div class=\"experience-item\">\n            "

def roT1 : String := "\n            <div class=\"role-item\">\n                <div class=\"role-header\">\n                    <span style=\"font-weight: 600;\">"

def roT2 : String := "</span>\n                    <span class=\"role-dates\">"

def roT3 : String := "</span>\n                </div>\n                <div style=\"margin-bottom: 2pt;\">"

def bulT1 : String := " • "

def roT4 : String := "</div>\n                <ul class=\"responsibilities\">\n                    "

def reT1 : String := "\n                    <li>"

def reT2 : String := "</li>\n                    "

def roT5 : String := "\n                </ul>\n            </div>\n            "

def exT2 : String := "\n        </div>\n        "

def awHdT : String := "\n    </div>\n    \n    <div class=\"section\">\n        <div class=\"section-title\">Awards</div>\n        "

def awT1 : String := "\n        <div class=\"experience-item\">\n            <div class=\"role-header\">\n                <span style=\"font-weight: 600;\">"

def awT2 : String := "</span>\n                <span class=\"role-dates\">"

def awT3 : String := "</span>\n            </div>\n            <div style=\"margin-bottom: 2pt;\">"

def bulT2 : String := " • "

def awT4 : String := "</div>\n            "

def awT5 : String := "\n            <ul class=\"responsibilities\">\n                <li>"

def awT6 : String := "</li>\n            </ul>\n            "

def awT7 : String := "\n        </div>\n        "

def edHdT : String := "\n    </div>\n    \n    <div class=\"section\">\n        <div class=\"section-title\">Education</div>\n        "

def edT1 : String := "\n        <div class=\"education-item\">\n            <div class=\"education-header\">\n                <span class=\"institution\">"

def edT2 : String := "</span>\n                <span style=\"font-style: italic;\">"

def edT3 : String := "</span>\n            </div>\n            <div style=\"margin-bottom: 2pt;\">"

def bulT3 : String := " • "

def edT4 : String := "</div>\n            "

def cwT1 : String := "\n            <div class=\"coursework\">\n                <strong>• Coursework:</strong> "

def cwT2 : String := "\n            </div>\n            "

def edT5 : String := "\n        </div>\n        "

def tailT : String := "\n    </div>\n</body>\n</html>"

/-- One responsibility bullet of the role loop. -/
def renderResp (resp : String) : String :=
  reT1 ++ parse_markdown_links resp ++ reT2

/-- One iteration of the inner `{% for role in job.roles %}` loop.  The
company/location line sits inside the role loop in the template. -/
def renderRole (job : Job) (role : Role) : String :=
  roT1 ++ parse_markdown_links role.title ++ roT2 ++ convert_hyphens role.dates ++
    roT3 ++ parse_markdown_links job.company ++ bulT1 ++ job.location ++ roT4 ++
    sjoin (role.responsibilities.map renderResp) ++ roT5

/-- One iteration of the `{% for job in experience %}` loop. -/
def renderJob (job : Job) : String :=
  exT1 ++ sjoin (job.roles.map (renderRole job)) ++ exT2

/-- One iteration of the `{% for skill in skills %}` loop. -/
def renderSkill (skill : Skill) : String :=
  skT1 ++ skill.category ++ skT2 ++
    joinComma ((skill.items.getD []).map parse_markdown_links) ++ skT3

/-- One iteration of the `{% for award in awards %}` loop, with the two
conditional fragments for `team` and `description`. -/
def renderAward (award : Award) : String :=
  awT1 ++ parse_markdown_links award.name ++ awT2 ++ convert_hyphens award.date ++
    awT3 ++ parse_markdown_links award.organization ++
    (if truthyS award.team then bulT2 ++ award.team.getD "" else "") ++ awT4 ++
    (if truthyS award.description then
        awT5 ++ parse_markdown_links (award.description.getD "") ++ awT6
      else "") ++ awT7

/-- One iteration of the `{% for edu in education %}` loop, with the two
conditional fragments for `gpa` and `coursework`. -/
def renderEdu (edu : Education) : String :=
  edT1 ++ parse_markdown_links edu.degree ++ edT2 ++ convert_hyphens edu.graduation ++
    edT3 ++ parse_markdown_links edu.institution ++
    (if truthyS edu.gpa then bulT3 ++ edu.gpa.getD "" else "") ++ edT4 ++
    (if truthyL edu.coursework then
        cwT1 ++ joinComma ((edu.coursework.getD []).map parse_markdown_links) ++ cwT2
      else "") ++ edT5

/-- Embeds `Template(TEMPLATE).render(**data)`: the fixed layout filled in
with the record's fields.  `keep_trailing_newline` is off, so the template's
final newline is dropped (`tailT` ends at `</html>`). -/
def renderResume (r : Resume) : String :=
  hdT ++ r.name ++ hT1 ++ parse_markdown_links r.location ++ dashT1 ++
    parse_markdown_links r.email ++ dashT2 ++ parse_markdown_links r.website ++ hT2 ++
    sjoin (r.skills.map renderSkill) ++ skT4 ++
    sjoin (r.experience.map renderJob) ++ awHdT ++
    sjoin (r.awards.map renderAward) ++ edHdT ++
    sjoin (r.education.map renderEdu) ++ tailT

/-- The I/O oracles of one `generate_resume(...)` run: the configured paths,
whether the input path exists, what `yaml.safe_load` yields, and whether
each of the two output operations (the HTML file write, the PDF render and
write) succeeds; `htmlDiag`/`pdfDiag` are the exception texts shown on
failure. -/
structure Env where
  yaml_file : String
  output_pdf : String
  output_html : String
  inputExists : Bool
  parsed : Except String Resume
  htmlWriteOk : Bool
  htmlDiag : String
  pdfOk : Bool
  pdfDiag : String

/-- A file write the run performed. -/
inductive FileEvent where
  | wroteHtml (path content : String)
  | wrotePdf (path : String)
  deriving DecidableEq

/-- The observable behaviour of one run: the lines printed in order, the
file writes in order, the content the HTML output holds after the run (if
it was written), whether the PDF was produced, and whether each output step
was reached at all. -/
structure RunTrace where
  printed : List String
  files : List FileEvent
  htmlWritten : Option String
  pdfWritten : Bool
  htmlAttempted : Bool
  pdfAttempted : Bool
  deriving DecidableEq

/-- `f"Error: {yaml_file} not found. Please create the file first."` -/
def missingMsg (f : String) : String :=
  "Error: " ++ f ++ " not found. Please create the file first."

/-- `f"Error parsing YAML: {e}"` -/
def parseMsg (e : String) : String :=
  "Error parsing YAML: " ++ e

/-- `f"✓ HTML generated: {output_html}"` -/
def htmlOkMsg (p : String) : String :=
  "✓ HTML generated: " ++ p

/-- `f"Error generating HTML: {e}"` -/
def htmlErrMsg (e : String) : String :=
  "Error generating HTML: " ++ e

/-- `f"✓ PDF generated: {output_pdf}"` -/
def pdfOkMsg (p : String) : String :=
  "✓ PDF generated: " ++ p

/-- `f"Error generating PDF: {e}"` -/
def pdfErrMsg (e : String) : String :=
  "Error generating PDF: " ++ e

/-- Embeds the control flow of `generate_resume`: bail out with a message if
the input file is missing; bail out with a message if the YAML parse raises;
otherwise render the template once, then attempt the HTML write and the PDF
write in that order, each in its own try/except, so a failure of one is
reported and does not stop the other. -/
def generate_resume (env : Env) : RunTrace :=
  if env.inputExists = false then
    { printed := [missingMsg env.yaml_file], files := [], htmlWritten := none,
      pdfWritten := false, htmlAttempted := false, pdfAttempted := false }
  else
    match env.parsed with
    | .error e =>
      { printed := [parseMsg e], files := [], htmlWritten := none,
        pdfWritten := false, htmlAttempted := false, pdfAttempted := false }
    | .ok data =>
      let html_content := renderResume data
      let htmlStep : List String × List FileEvent × Option String :=
        if env.htmlWriteOk then
          ([htmlOkMsg env.output_html], [.wroteHtml env.output_html html_content],
            some html_content)
        else ([htmlErrMsg env.htmlDiag], [], none)
      let pdfStep : List String × List FileEvent × Bool :=
        if env.pdfOk then ([pdfOkMsg env.output_pdf], [.wrotePdf env.output_pdf], true)
        else ([pdfErrMsg env.pdfDiag], [], false)
      { printed := htmlStep.1 ++ pdfStep.1,
        files := htmlStep.2.1 ++ pdfStep.2.1,
        htmlWritten := htmlStep.2.2,
        pdfWritten := pdfStep.2.2,
        htmlAttempted := true,
        pdfAttempted := true }

/-- Python's `str.endswith`. -/
def endswith (s pat : String) : Bool :=
  pat.data.isSuffixOf s.data

/-- The watchdog handler: its one piece of state is the timestamp of the
last accepted notification (initialized to the construction time).  Time is
modelled as rationals. -/
structure ResumeHandler where
  last_modified : Rat
  deriving DecidableEq

/-- Embeds `ResumeHandler.on_modified` for a notification arriving at time
`now` for path `src_path`: first the debounce check against the stored
timestamp (strictly within 0.5 means return immediately), then the path
check; only when both pass is the timestamp updated (to the notification's
time) and the pipeline run.  Returns the new state and whether the pipeline
ran. -/
def on_modified (h : ResumeHandler) (now : Rat) (src_path : String) :
    ResumeHandler × Bool :=
  if now - h.last_modified < 1/2 then (h, false)
  else if endswith src_path "resume.yaml" then ({ last_modified := now }, true)
  else (h, false)

/-- A whole notification sequence, folded through `on_modified`; returns the
final handler state and the arrival times of the accepted notifications. -/
def runEvents (h : ResumeHandler) : List (Rat × String) → ResumeHandler × List Rat
  | [] => (h, [])
  | (t, p) :: rest =>
    let step := on_modified h t p
    let next := runEvents step.1 rest
    (next.1, (if step.2 then [t] else []) ++ next.2)



/-- Whether the regex `\[([^\]]+)\]\(([^\)]+)\)` matches anywhere in the
text: the scan of `re.sub` fires at some position. -/
def hasLinkOcc : List Char → Bool
  | [] => false
  | c :: rest => (c == '[' && (tryLink rest).isSome) || hasLinkOcc rest


/-! ### Sample data for concrete instantiations -/

/-- A role whose dates field is a hyphenated range and whose title contains
a hyphen. -/
def sampleRole : Role :=
  { title := "Dev-Lead", dates := "2020-2022", responsibilities := ["did x"] }

/-- An experience entry with hyphens in `company` and `location`. -/
def sampleJob : Job :=
  { company := "Ex-Corp", location := "Rem-ote", roles := [sampleRole] }

/-- An award with hyphens in its free-text fields. -/
def sampleAward : Award :=
  { name := "Best-Award", date := "2021", organization := "Org-X",
    team := some "Team", description := some "Desc-Text" }

/-- An education entry that omits both optional fields. -/
def sampleEdu : Education :=
  { degree := "B-S", institution := "Uni-Y", graduation := "2019",
    gpa := none, coursework := none }

/-- A small complete resume. -/
def sampleResume : Resume :=
  { name := "N", location := "L", email := "E", website := "W",
    skills := [{ category := "Cat", items := some ["a", "b"] }],
    experience := [sampleJob], awards := [sampleAward],
    education := [sampleEdu], projects := [] }

/-- A resume whose only unusual content is a non-empty `projects` list; the
project's name uses the dagger character, which occurs nowhere in the
template or in the other fields, as a tracer. -/
def cexP : Resume :=
  { name := "N", location := "L", email := "E", website := "W",
    skills := [], experience := [], awards := [], education := [],
    projects := [{ name := "†-†", url := "u", technologies := ["t"],
                   description := "d" }] }

/-- A run in which the input file is missing. -/
def envMissing : Env :=
  { yaml_file := "resume.yaml", output_pdf := "resume.pdf",
    output_html := "resume.html", inputExists := false,
    parsed := .error "unused", htmlWriteOk := true, htmlDiag := "",
    pdfOk := true, pdfDiag := "" }

/-- A run in which the input parses but the PDF step fails. -/
def envPdfFail : Env :=
  { yaml_file := "resume.yaml", output_pdf := "resume.pdf",
    output_html := "resume.html", inputExists := true,
    parsed := .ok sampleResume, htmlWriteOk := true, htmlDiag := "",
    pdfOk := false, pdfDiag := "boom" }

/-- A run in which the input parses but the HTML write fails. -/
def envHtmlFail : Env :=
  { yaml_file := "resume.yaml", output_pdf := "resume.pdf",
    output_html := "resume.html", inputExists := true,
    parsed := .ok sampleResume, htmlWriteOk := false, htmlDiag := "disk full",
    pdfOk := true, pdfDiag := "" }

/-! ### Basic string lemmas -/

theorem data_append (a b : String) : (a ++ b).data = a.data ++ b.data := by
  cases a; cases b; rfl

theorem mk_data (s : String) : String.mk s.data = s := by
  cases s; rfl

theorem app_empty (s : String) : s ++ "" = s := by
  cases s; show String.mk _ = _; simp [String.mk]

theorem substr_refl (s : String) : Substr s s :=
  ⟨[], [], by simp⟩

theorem substr_trans {a b c : String} (h1 : Substr a b) (h2 : Substr b c) :
    Substr a c := by
  obtain ⟨u, v, huv⟩ := h1
  obtain ⟨x, y, hxy⟩ := h2
  exact ⟨x ++ u, v ++ y, by rw [← hxy, ← huv]; simp [List.append_assoc]⟩

theorem substr_appL (a : String) {n m : String} (h : Substr n m) :
    Substr n (a ++ m) := by
  obtain ⟨u, v, huv⟩ := h
  exact ⟨a.data ++ u, v, by rw [data_append, ← huv]; simp [List.append_assoc]⟩

theorem substr_appR (b : String) {n m : String} (h : Substr n m) :
    Substr n (m ++ b) := by
  obtain ⟨u, v, huv⟩ := h
  exact ⟨u, v ++ b.data, by rw [data_append, ← huv]; simp [List.append_assoc]⟩

theorem substr_sjoin {α : Type} (f : α → String) {x : α} {l : List α}
    (hx : x ∈ l) : Substr (f x) (sjoin (l.map f)) := by
  induction l with
  | nil => cases hx
  | cons y t ih =>
    rcases List.mem_cons.mp hx with rfl | hmem
    · exact substr_appR (sjoin (t.map f)) (substr_refl (f x))
    · exact substr_appL (f y) (ih hmem)

theorem not_substr_of_char {c : Char} {n m : String} (hc : c ∈ n.data)
    (hm : c ∉ m.data) : ¬ Substr n m := by
  rintro ⟨u, v, huv⟩
  exact hm (huv ▸ (by simp [List.mem_append]; tauto))


/-! ### Scanner lemmas -/

theorem takeWhile_append_all {p : Char → Bool} {l1 : List Char} (l2 : List Char)
    (h : ∀ c ∈ l1, p c = true) :
    (l1 ++ l2).takeWhile p = l1 ++ l2.takeWhile p := by
  induction l1 with
  | nil => simp
  | cons c t ih =>
    have hc := h c (by simp)
    simp [List.takeWhile_cons, hc, ih fun x hx => h x (by simp [hx])]

theorem dropWhile_append_all {p : Char → Bool} {l1 : List Char} (l2 : List Char)
    (h : ∀ c ∈ l1, p c = true) :
    (l1 ++ l2).dropWhile p = l2.dropWhile p := by
  induction l1 with
  | nil => simp
  | cons c t ih =>
    have hc := h c (by simp)
    simp [List.dropWhile_cons, hc, ih fun x hx => h x (by simp [hx])]

theorem tryLink_some {l lab tgt r2 : List Char}
    (h : tryLink l = some (lab, tgt, r2)) :
    l = lab ++ ']' :: '(' :: (tgt ++ ')' :: r2) ∧ lab ≠ [] ∧ tgt ≠ [] ∧
      (∀ c ∈ lab, c ≠ ']') ∧ (∀ c ∈ tgt, c ≠ ')') := by
  unfold tryLink at h
  split at h
  next r1 heq =>
    split at h
    next r2' heq2 =>
      split at h
      · exact absurd h (by simp)
      next hne =>
        simp only [Option.some.injEq, Prod.mk.injEq] at h
        obtain ⟨hlab, htgt, hr2⟩ := h
        push_neg at hne
        refine ⟨?_, hlab ▸ hne.1, htgt ▸ hne.2, ?_, ?_⟩
        · have hl := (List.takeWhile_append_dropWhile (p := fun c => decide (c ≠ ']')) (l := l)).symm
          have hr1 := (List.takeWhile_append_dropWhile (p := fun c => decide (c ≠ ')')) (l := r1)).symm
          rw [heq2, htgt, hr2] at hr1
          rw [heq, hlab, hr1] at hl
          simpa using hl
        · intro c hc
          have := List.mem_takeWhile_imp (hlab ▸ hc)
          simpa using this
        · intro c hc
          have := List.mem_takeWhile_imp (htgt ▸ hc)
          simpa using this
    · exact absurd h (by simp)
  · exact absurd h (by simp)

theorem tryLink_build {lab tgt : List Char} (post : List Char) (hlab : lab ≠ [])
    (hlabc : ∀ c ∈ lab, c ≠ ']') (htgt : tgt ≠ []) (htgtc : ∀ c ∈ tgt, c ≠ ')') :
    tryLink (lab ++ ']' :: '(' :: (tgt ++ ')' :: post)) = some (lab, tgt, post) := by
  have hdrop1 : (lab ++ ']' :: '(' :: (tgt ++ ')' :: post)).dropWhile
      (fun c => decide (c ≠ ']')) = ']' :: '(' :: (tgt ++ ')' :: post) := by
    rw [dropWhile_append_all _ (by intro c hc; simpa using hlabc c hc)]
    simp [List.dropWhile_cons]
  have htake1 : (lab ++ ']' :: '(' :: (tgt ++ ')' :: post)).takeWhile
      (fun c => decide (c ≠ ']')) = lab := by
    rw [takeWhile_append_all _ (by intro c hc; simpa using hlabc c hc)]
    simp [List.takeWhile_cons]
  have hdrop2 : (tgt ++ ')' :: post).dropWhile (fun c => decide (c ≠ ')')) =
      ')' :: post := by
    rw [dropWhile_append_all _ (by intro c hc; simpa using htgtc c hc)]
    simp [List.dropWhile_cons]
  have htake2 : (tgt ++ ')' :: post).takeWhile (fun c => decide (c ≠ ')')) = tgt := by
    rw [takeWhile_append_all _ (by intro c hc; simpa using htgtc c hc)]
    simp [List.takeWhile_cons]
  unfold tryLink
  rw [hdrop1]
  simp only [hdrop2, htake1, htake2]
  simp [hlab, htgt]


theorem tryLink_length {l lab tgt r2 : List Char}
    (h : tryLink l = some (lab, tgt, r2)) : r2.length + 5 ≤ l.length := by
  obtain ⟨hdecomp, hlab, htgt, -, -⟩ := tryLink_some h
  have h1 : 1 ≤ lab.length := List.length_pos.mpr hlab
  have h2 : 1 ≤ tgt.length := List.length_pos.mpr htgt
  subst hdecomp
  simp only [List.length_append, List.length_cons]
  omega

theorem subLinksF_nil (n : Nat) : subLinksF n [] = [] := by
  cases n <;> rfl

theorem subLinksF_fuel : ∀ (n m : Nat) (l : List Char), l.length ≤ n →
    l.length ≤ m → subLinksF n l = subLinksF m l := by
  intro n
  induction n with
  | zero =>
    intro m l hn _
    have : l = [] := List.length_eq_zero.mp (Nat.le_zero.mp hn)
    subst this
    simp [subLinksF_nil]
  | succ n ih =>
    intro m l hn hm
    cases l with
    | nil => simp [subLinksF_nil]
    | cons c rest =>
      cases m with
      | zero => simp at hm
      | succ m =>
        simp only [subLinksF]
        have hrest : rest.length ≤ n := by
          simp only [List.length_cons] at hn; omega
        have hrest' : rest.length ≤ m := by
          simp only [List.length_cons] at hm; omega
        by_cases hc : c = '['
        · subst hc
          rw [if_pos rfl, if_pos rfl]
          cases htl : tryLink rest with
          | none =>
            dsimp only
            rw [ih m rest hrest hrest']
          | some trip =>
            obtain ⟨lab, tgt, r2⟩ := trip
            have hlen := tryLink_length htl
            dsimp only
            rw [ih m r2 (by omega) (by omega)]
        · rw [if_neg hc, if_neg hc]
          rw [ih m rest hrest hrest']


/-- Hyphens pass through the link scan untouched: the replacement keeps both
captured groups and the fixed replacement text contains no hyphen-minus. -/
theorem count_hyphen_subLinksF : ∀ (n : Nat) (l : List Char), l.length ≤ n →
    (subLinksF n l).count '-' = l.count '-' := by
  intro n
  induction n with
  | zero =>
    intro l hn
    have : l = [] := List.length_eq_zero.mp (Nat.le_zero.mp hn)
    subst this
    simp [subLinksF_nil]
  | succ n ih =>
    intro l hn
    cases l with
    | nil => simp [subLinksF_nil]
    | cons c rest =>
      have hrest : rest.length ≤ n := by
        simp only [List.length_cons] at hn; omega
      simp only [subLinksF]
      by_cases hc : c = '['
      · subst hc
        rw [if_pos rfl]
        cases htl : tryLink rest with
        | none =>
          dsimp only
          simp [List.count_cons, ih rest hrest]
        | some trip =>
          obtain ⟨lab, tgt, r2⟩ := trip
          have hlen := tryLink_length htl
          obtain ⟨hdecomp, -, -, -, -⟩ := tryLink_some htl
          dsimp only
          rw [List.count_append, ih r2 (by omega)]
          subst hdecomp
          simp only [linkRepl, List.count_append, List.count_cons]
          have h1 : ("<a href=\"".data).count '-' = 0 := by decide
          have h2 : ("\">".data).count '-' = 0 := by decide
          have h3 : ("</a>".data).count '-' = 0 := by decide
          simp [h1, h2, h3]
          omega
      · rw [if_neg hc]
        simp [List.count_cons, ih rest hrest]

theorem count_hyphen_subLinks (l : List Char) :
    (subLinks l).count '-' = l.count '-' :=
  count_hyphen_subLinksF l.length l (Nat.le_refl _)

theorem parse_markdown_links_data (s : String) :
    (parse_markdown_links s).data = subLinks s.data := by
  by_cases hs : s = ""
  · subst hs; rfl
  · simp [parse_markdown_links, hs]

theorem count_hyphen_parse (s : String) :
    hyphenCount (parse_markdown_links s) = hyphenCount s := by
  rw [hyphenCount, hyphenCount, parse_markdown_links_data, count_hyphen_subLinks]

theorem count_hyphen_convert (s : String) :
    hyphenCount (convert_hyphens s) = 0 := by
  by_cases hs : s = ""
  · subst hs; rfl
  · simp only [hyphenCount, convert_hyphens, if_neg hs]
    rw [List.count_eq_zero]
    intro hmem
    simp only [List.mem_map] at hmem
    obtain ⟨c, -, hc⟩ := hmem
    by_cases h : c = '-'
    · rw [if_pos h] at hc
      exact absurd hc (by decide)
    · rw [if_neg h] at hc
      exact h hc


/-- A text in which the pattern matches nowhere passes through the scan
unchanged. -/
theorem subLinksF_id_of_no_occ : ∀ (n : Nat) (l : List Char), l.length ≤ n →
    hasLinkOcc l = false → subLinksF n l = l := by
  intro n
  induction n with
  | zero =>
    intro l hn _
    have : l = [] := List.length_eq_zero.mp (Nat.le_zero.mp hn)
    subst this
    simp [subLinksF_nil]
  | succ n ih =>
    intro l hn hocc
    cases l with
    | nil => simp [subLinksF_nil]
    | cons c rest =>
      have hrest : rest.length ≤ n := by
        simp only [List.length_cons] at hn; omega
      simp only [hasLinkOcc, Bool.or_eq_false_iff, Bool.and_eq_false_iff] at hocc
      obtain ⟨hhead, htail⟩ := hocc
      simp only [subLinksF]
      by_cases hc : c = '['
      · subst hc
        rw [if_pos rfl]
        cases htl : tryLink rest with
        | none =>
          dsimp only
          rw [ih rest hrest htail]
        | some trip =>
          rcases hhead with hfalse | hnone
          · simp at hfalse
          · rw [htl] at hnone; simp at hnone
      · rw [if_neg hc]
        rw [ih rest hrest htail]

theorem subLinks_id_of_no_occ {l : List Char} (h : hasLinkOcc l = false) :
    subLinks l = l :=
  subLinksF_id_of_no_occ l.length l (Nat.le_refl _) h

theorem parse_markdown_links_id {t : String} (h : hasLinkOcc t.data = false) :
    parse_markdown_links t = t := by
  by_cases ht : t = ""
  · subst ht; rfl
  · simp only [parse_markdown_links, if_neg ht]
    rw [subLinks_id_of_no_occ h, mk_data]

/-- The scan replaces the leftmost match and continues after it: text before
the first `[` of a match is copied verbatim. -/
theorem subLinksF_replace : ∀ (pre : List Char) (n : Nat)
    (lab tgt post : List Char),
    (pre ++ '[' :: (lab ++ ']' :: '(' :: (tgt ++ ')' :: post))).length ≤ n →
    '[' ∉ pre → lab ≠ [] → (∀ c ∈ lab, c ≠ ']') → tgt ≠ [] →
    (∀ c ∈ tgt, c ≠ ')') →
    subLinksF n (pre ++ '[' :: (lab ++ ']' :: '(' :: (tgt ++ ')' :: post))) =
      pre ++ (linkRepl lab tgt ++ subLinks post) := by
  intro pre
  induction pre with
  | nil =>
    intro n lab tgt post hn _ hlab hlabc htgt htgtc
    cases n with
    | zero => simp at hn
    | succ n =>
      simp only [List.nil_append] at hn ⊢
      simp only [subLinksF, if_pos rfl]
      rw [tryLink_build post hlab hlabc htgt htgtc]
      simp only [if_true]
      congr 1
      have hpost : post.length ≤ n := by
        simp only [List.length_cons, List.length_append] at hn
        omega
      exact subLinksF_fuel n post.length post hpost (Nat.le_refl _)
  | cons c pre ih =>
    intro n lab tgt post hn hpre hlab hlabc htgt htgtc
    have hc : c ≠ '[' := by
      intro hcc
      exact hpre (by simp [hcc])
    have hpre' : '[' ∉ pre := fun hx => hpre (by simp [hx])
    cases n with
    | zero => simp at hn
    | succ n =>
      simp only [List.cons_append, subLinksF, if_neg hc]
      exact congrArg (c :: ·)
        (ih n lab tgt post (by simpa using hn) hpre' hlab hlabc htgt htgtc)

theorem subLinks_replace (pre lab tgt post : List Char) (hpre : '[' ∉ pre)
    (hlab : lab ≠ []) (hlabc : ∀ c ∈ lab, c ≠ ']') (htgt : tgt ≠ [])
    (htgtc : ∀ c ∈ tgt, c ≠ ')') :
    subLinks (pre ++ '[' :: (lab ++ ']' :: '(' :: (tgt ++ ')' :: post))) =
      pre ++ (linkRepl lab tgt ++ subLinks post) :=
  subLinksF_replace pre _ lab tgt post (Nat.le_refl _) hpre hlab hlabc htgt htgtc


/-! ### Claim theorems -/

/-- C4: `convert_hyphens` replaces every hyphen-minus with an en dash and
changes no other character; in particular the output has the same length
(in code points) as the input. -/
theorem c4_convert_hyphens_pointwise (t : String) :
    (convert_hyphens t).length = t.length ∧
    ∀ i : Nat, (convert_hyphens t).data[i]? =
      (t.data[i]?).map (fun c => if c = '-' then '–' else c) := by
  by_cases ht : t = ""
  · subst ht
    exact ⟨rfl, fun i => by simp [convert_hyphens]⟩
  · constructor
    · rw [convert_hyphens, if_neg ht]
      exact List.length_map t.data _
    · intro i
      rw [convert_hyphens, if_neg ht]
      exact List.getElem?_map _ _ _

/-- C1 (amended): the template body has no projects region at all — the
rendered markup is unchanged under any replacement of the `projects` field,
so no project field is bound into the output. -/
theorem c1_projects_not_bound (r : Resume) (p : List Project) :
    renderResume { r with projects := p } = renderResume r := rfl

set_option maxRecDepth 20000 in
/-- The tracer character of `cexP`'s project name does not occur anywhere in
the rendered markup. -/
theorem dagger_not_in_render : '†' ∉ (renderResume cexP).data := by decide

/-- C1 fails as stated: `cexP` has a non-empty `projects` sequence, yet its
rendered markup does not contain the project's name (so no region binds the
project's fields). -/
theorem c1_projects_cex :
    cexP.projects ≠ [] ∧ ¬ Substr "†-†" (renderResume cexP) :=
  ⟨by decide, not_substr_of_char (by decide) dagger_not_in_render⟩

/-- C3 fails for the project fields: `cexP`'s single project has the
hyphenated name `"†-†"`, and that hyphen does not survive in the rendered
markup — the name does not appear in the output at all, because the
template renders no projects region. -/
theorem c3_project_hyphen_cex :
    ('-' ∈ ("†-†" : String).data) ∧ cexP.projects.map Project.name = ["†-†"] ∧
      ¬ Substr "†-†" (renderResume cexP) :=
  ⟨by decide, by decide, not_substr_of_char (by decide) dagger_not_in_render⟩

set_option maxRecDepth 4000 in
/-- C5: inline-link conversion (a) returns any text without a pattern
occurrence unchanged, (b) replaces the leftmost occurrence
`[label](target)` (label without `]`, target without `)`, both non-empty)
with `<a href="target">label</a>` and continues scanning after it, and
(c) on the two-link example replaces both occurrences and keeps the text
between them. -/
theorem c5_link_conversion (t : String) (pre lab tgt post : List Char)
    (ht : hasLinkOcc t.data = false) (hpre : '[' ∉ pre) (hlab : lab ≠ [])
    (hlabc : ∀ c ∈ lab, c ≠ ']') (htgt : tgt ≠ [])
    (htgtc : ∀ c ∈ tgt, c ≠ ')') :
    parse_markdown_links t = t ∧
    subLinks (pre ++ '[' :: (lab ++ ']' :: '(' :: (tgt ++ ')' :: post))) =
      pre ++ (linkRepl lab tgt ++ subLinks post) ∧
    parse_markdown_links "[A](B) and [C](D)" =
      "<a href=\"B\">A</a> and <a href=\"D\">C</a>" :=
  ⟨parse_markdown_links_id ht,
   subLinks_replace pre lab tgt post hpre hlab hlabc htgt htgtc,
   by decide⟩

/-- C5 witness: a hyphenated plain text without any link pattern passes
through unchanged. -/
theorem c5_witness : parse_markdown_links "plain - text" = "plain - text" :=
  (c5_link_conversion "plain - text" [] ['A'] ['B'] [] (by decide) (by decide)
    (by decide) (by decide) (by decide) (by decide)).1


/-- A match attempt whose label would be empty (the `[` is immediately
followed by `]`) fails: the pattern requires `[^\]]+`. -/
theorem tryLink_empty_label (l : List Char) : tryLink (']' :: l) = none := by
  have htake : (']' :: l).takeWhile (fun c => decide (c ≠ ']')) = [] := by
    simp [List.takeWhile_cons]
  have hdrop : (']' :: l).dropWhile (fun c => decide (c ≠ ']')) = ']' :: l := by
    simp [List.dropWhile_cons]
  unfold tryLink
  rw [hdrop]
  split
  · split
    · rw [if_pos (Or.inl htake)]
    · rfl
  · rfl

/-- A match attempt whose target would be empty (`](` immediately followed
by `)`) fails: the pattern requires `[^\)]+`. -/
theorem tryLink_empty_target {lab : List Char} (post : List Char)
    (hlabc : ']' ∉ lab) :
    tryLink (lab ++ ']' :: '(' :: ')' :: post) = none := by
  have hall : ∀ c ∈ lab, (fun c => decide (c ≠ ']')) c = true := by
    intro c hc
    simp only [decide_eq_true_eq]
    exact fun he => hlabc (he ▸ hc)
  have hdrop : (lab ++ ']' :: '(' :: ')' :: post).dropWhile
      (fun c => decide (c ≠ ']')) = ']' :: '(' :: ')' :: post := by
    rw [dropWhile_append_all _ hall]
    simp [List.dropWhile_cons]
  have hdrop2 : (')' :: post).dropWhile (fun c => decide (c ≠ ')')) =
      ')' :: post := by
    simp [List.dropWhile_cons]
  have htake2 : (')' :: post).takeWhile (fun c => decide (c ≠ ')')) = [] := by
    simp [List.takeWhile_cons]
  unfold tryLink
  rw [hdrop]
  split
  next r1 heq =>
    have hr1 : r1 = ')' :: post := by
      have := heq
      simp only [List.cons.injEq] at this
      exact this.2.2.symm
    subst hr1
    rw [hdrop2]
    split
    next r2 heq2 =>
      have hr2 : r2 = post := by
        simp only [List.cons.injEq] at heq2
        exact heq2.2.symm
      subst hr2
      rw [if_pos (Or.inr htake2)]
    next => rfl
  next hno => exact absurd rfl (hno (')' :: post))

/-- C9: a bracket-paren sequence with an empty label or an empty target is
not treated as a link: `[](x)` and `[x]()` pass through unchanged, a match
attempt at an immediately-closed `[` fails, and a match attempt whose
parentheses are empty fails. -/
theorem c9_empty_label_or_target (lab post l : List Char) (hlabc : ']' ∉ lab) :
    parse_markdown_links "[](x)" = "[](x)" ∧
    parse_markdown_links "[x]()" = "[x]()" ∧
    tryLink (']' :: l) = none ∧
    tryLink (lab ++ ']' :: '(' :: ')' :: post) = none :=
  ⟨by decide, by decide, tryLink_empty_label l, tryLink_empty_target post hlabc⟩

/-- C9 witness: the general empty-target fact at a concrete label. -/
theorem c9_witness : tryLink (['x'] ++ ']' :: '(' :: ')' :: []) = none :=
  (c9_empty_label_or_target ['x'] [] [] (by decide)).2.2.2


theorem string_ne_of_nth {a b : String} (n : Nat)
    (h : a.data[n]? ≠ b.data[n]?) : a ≠ b :=
  fun e => h (by rw [e])

theorem missingMsg_nth (f : String) : (missingMsg f).data[5]? = some ':' := by
  rw [missingMsg, data_append, data_append]
  have h1 : ("Error: ".data ++ f.data).length = 7 + f.data.length := by
    rw [List.length_append]; rfl
  rw [List.getElem?_append_left (by omega), List.getElem?_append_left (by decide)]
  rfl

theorem parseMsg_nth (e : String) :
    (parseMsg e).data[5]? = some ' ' ∧ (parseMsg e).data[6]? = some 'p' := by
  rw [parseMsg, data_append]
  constructor <;> rw [List.getElem?_append_left (by decide)] <;> rfl

theorem htmlErrMsg_nth (e : String) :
    (htmlErrMsg e).data[5]? = some ' ' ∧ (htmlErrMsg e).data[6]? = some 'g' ∧
      (htmlErrMsg e).data[17]? = some 'H' := by
  rw [htmlErrMsg, data_append]
  refine ⟨?_, ?_, ?_⟩ <;> rw [List.getElem?_append_left (by decide)] <;> rfl

theorem pdfErrMsg_nth (e : String) :
    (pdfErrMsg e).data[5]? = some ' ' ∧ (pdfErrMsg e).data[6]? = some 'g' ∧
      (pdfErrMsg e).data[17]? = some 'P' := by
  rw [pdfErrMsg, data_append]
  refine ⟨?_, ?_, ?_⟩ <;> rw [List.getElem?_append_left (by decide)] <;> rfl

/-- The four failure diagnostics are pairwise distinct whatever the
interpolated path or exception text. -/
theorem msgs_pairwise_ne (f g h i : String) :
    missingMsg f ≠ parseMsg g ∧ missingMsg f ≠ htmlErrMsg h ∧
      missingMsg f ≠ pdfErrMsg i ∧ parseMsg g ≠ htmlErrMsg h ∧
      parseMsg g ≠ pdfErrMsg i ∧ htmlErrMsg h ≠ pdfErrMsg i := by
  refine ⟨?_, ?_, ?_, ?_, ?_, ?_⟩
  · exact string_ne_of_nth 5
      (by rw [missingMsg_nth, (parseMsg_nth g).1]; decide)
  · exact string_ne_of_nth 5
      (by rw [missingMsg_nth, (htmlErrMsg_nth h).1]; decide)
  · exact string_ne_of_nth 5
      (by rw [missingMsg_nth, (pdfErrMsg_nth i).1]; decide)
  · exact string_ne_of_nth 6
      (by rw [(parseMsg_nth g).2, (htmlErrMsg_nth h).2.1]; decide)
  · exact string_ne_of_nth 6
      (by rw [(parseMsg_nth g).2, (pdfErrMsg_nth i).2.1]; decide)
  · exact string_ne_of_nth 17
      (by rw [(htmlErrMsg_nth h).2.2, (pdfErrMsg_nth i).2.2]; decide)

/-- C2: each of the four expected failure modes is caught and reported with
its own diagnostic (and the run goes on or stops exactly as the driver
does), and the four diagnostics are pairwise distinguishable; the embedding
is a total function of the oracles, so no expected failure mode escapes as
an unstructured crash. -/
theorem c2_failure_modes (env : Env) (e : String) (d : Resume)
    (f g h i : String) :
    (env.inputExists = false →
      (generate_resume env).printed = [missingMsg env.yaml_file]) ∧
    (env.inputExists = true → env.parsed = Except.error e →
      (generate_resume env).printed = [parseMsg e]) ∧
    (env.inputExists = true → env.parsed = Except.ok d →
      env.htmlWriteOk = false →
      htmlErrMsg env.htmlDiag ∈ (generate_resume env).printed) ∧
    (env.inputExists = true → env.parsed = Except.ok d → env.pdfOk = false →
      pdfErrMsg env.pdfDiag ∈ (generate_resume env).printed) ∧
    (missingMsg f ≠ parseMsg g ∧ missingMsg f ≠ htmlErrMsg h ∧
      missingMsg f ≠ pdfErrMsg i ∧ parseMsg g ≠ htmlErrMsg h ∧
      parseMsg g ≠ pdfErrMsg i ∧ htmlErrMsg h ≠ pdfErrMsg i) := by
  refine ⟨?_, ?_, ?_, ?_, msgs_pairwise_ne f g h i⟩
  · intro hmiss
    simp [generate_resume, hmiss]
  · intro hex hparse
    have hne : ¬ env.inputExists = false := by rw [hex]; simp
    simp [generate_resume, hne, hparse]
  · intro hex hparse hh
    have hne : ¬ env.inputExists = false := by rw [hex]; simp
    by_cases hp : env.pdfOk <;> simp [generate_resume, hne, hparse, hh, hp]
  · intro hex hparse hp
    have hne : ¬ env.inputExists = false := by rw [hex]; simp
    by_cases hh : env.htmlWriteOk <;> simp [generate_resume, hne, hparse, hh, hp]


/-- A notification that does not trigger a run leaves the handler state
unchanged. -/
theorem on_modified_state_of_not_run {st : ResumeHandler} {now : Rat}
    {p : String} (h : (on_modified st now p).2 = false) :
    (on_modified st now p).1 = st := by
  unfold on_modified at h ⊢
  split_ifs at h ⊢ <;> simp_all

/-- Over a whole notification sequence, the stored timestamp moves only on
accepted notifications: no accepted notification means the state is
untouched. -/
theorem runEvents_no_accept : ∀ (st : ResumeHandler)
    (evs : List (Rat × String)), (runEvents st evs).2 = [] →
    (runEvents st evs).1 = st := by
  intro st evs
  induction evs generalizing st with
  | nil => intro _; rfl
  | cons ev rest ih =>
    obtain ⟨t, q⟩ := ev
    intro hacc
    simp only [runEvents] at hacc ⊢
    by_cases hs : (on_modified st t q).2
    · rw [if_pos hs] at hacc
      simp at hacc
    · rw [if_neg hs] at hacc
      simp only [List.nil_append] at hacc
      have hst := on_modified_state_of_not_run (by simpa using hs)
      rw [hst] at hacc ⊢
      exact ih st hacc

/-- C8: a notification strictly within 0.5 time-units of the stored
timestamp is discarded without a run and without a state change; one at or
beyond the window for the watched file runs the pipeline and stores the
notification's time; one beyond the window for another path neither runs
nor updates; the timestamp changes only when a run is triggered, and over
any whole sequence an accept-free run leaves the timestamp untouched. -/
theorem c8_debounce_watcher (st : ResumeHandler) (now : Rat) (p : String)
    (evs : List (Rat × String)) :
    (now - st.last_modified < 1/2 → on_modified st now p = (st, false)) ∧
    (¬ now - st.last_modified < 1/2 → endswith p "resume.yaml" = true →
      on_modified st now p = ({ last_modified := now }, true)) ∧
    (¬ now - st.last_modified < 1/2 → endswith p "resume.yaml" = false →
      on_modified st now p = (st, false)) ∧
    ((on_modified st now p).2 = false → (on_modified st now p).1 = st) ∧
    ((on_modified st now p).1 ≠ st → (on_modified st now p).2 = true ∧
      (on_modified st now p).1.last_modified = now) ∧
    ((runEvents st evs).2 = [] → (runEvents st evs).1 = st) := by
  refine ⟨?_, ?_, ?_, fun h => on_modified_state_of_not_run h, ?_,
    runEvents_no_accept st evs⟩
  · intro hlt
    rw [on_modified, if_pos hlt]
  · intro hge hend
    rw [on_modified, if_neg hge, hend]
    rfl
  · intro hge hend
    rw [on_modified, if_neg hge, hend]
    rfl
  · intro hne
    unfold on_modified at hne ⊢
    split_ifs at hne ⊢ with h1 h2
    · exact absurd rfl hne
    · exact ⟨rfl, rfl⟩
    · exact absurd rfl hne


theorem substr_job_in_resume {r : Resume} {job : Job} (hj : job ∈ r.experience) :
    Substr (renderJob job) (renderResume r) := by
  rw [renderResume]
  exact substr_appR _ (substr_appR _ (substr_appR _ (substr_appR _
    (substr_appR _ (substr_appL _ (substr_sjoin renderJob hj))))))

theorem substr_award_in_resume {r : Resume} {award : Award}
    (ha : award ∈ r.awards) : Substr (renderAward award) (renderResume r) := by
  rw [renderResume]
  exact substr_appR _ (substr_appR _ (substr_appR _
    (substr_appL _ (substr_sjoin renderAward ha))))

theorem substr_edu_in_resume {r : Resume} {edu : Education}
    (he : edu ∈ r.education) : Substr (renderEdu edu) (renderResume r) := by
  rw [renderResume]
  exact substr_appR _ (substr_appL _ (substr_sjoin renderEdu he))

theorem substr_role_in_job {job : Job} {role : Role} (hr : role ∈ job.roles) :
    Substr (renderRole job role) (renderJob job) := by
  rw [renderJob]
  exact substr_appR _ (substr_appL _ (substr_sjoin (renderRole job) hr))

theorem substr_title_in_role (job : Job) (role : Role) :
    Substr (parse_markdown_links role.title) (renderRole job role) := by
  rw [renderRole]
  exact substr_appR _ (substr_appR _ (substr_appR _ (substr_appR _
    (substr_appR _ (substr_appR _ (substr_appR _ (substr_appR _
      (substr_appR _ (substr_appL _ (substr_refl _))))))))))

theorem substr_dates_in_role (job : Job) (role : Role) :
    Substr (convert_hyphens role.dates) (renderRole job role) := by
  rw [renderRole]
  exact substr_appR _ (substr_appR _ (substr_appR _ (substr_appR _
    (substr_appR _ (substr_appR _ (substr_appR _
      (substr_appL _ (substr_refl _))))))))

theorem substr_company_in_role (job : Job) (role : Role) :
    Substr (parse_markdown_links job.company) (renderRole job role) := by
  rw [renderRole]
  exact substr_appR _ (substr_appR _ (substr_appR _ (substr_appR _
    (substr_appR _ (substr_appL _ (substr_refl _))))))

theorem substr_location_in_role (job : Job) (role : Role) :
    Substr job.location (renderRole job role) := by
  rw [renderRole]
  exact substr_appR _ (substr_appR _ (substr_appR _
    (substr_appL _ (substr_refl _))))

theorem substr_name_in_award (award : Award) :
    Substr (parse_markdown_links award.name) (renderAward award) := by
  rw [renderAward]
  exact substr_appR _ (substr_appR _ (substr_appR _ (substr_appR _
    (substr_appR _ (substr_appR _ (substr_appR _ (substr_appR _
      (substr_appL _ (substr_refl _)))))))))

theorem substr_date_in_award (award : Award) :
    Substr (convert_hyphens award.date) (renderAward award) := by
  rw [renderAward]
  exact substr_appR _ (substr_appR _ (substr_appR _ (substr_appR _
    (substr_appR _ (substr_appR _ (substr_appL _ (substr_refl _)))))))

theorem substr_desc_in_award {award : Award}
    (htr : truthyS award.description = true) :
    Substr (parse_markdown_links (award.description.getD ""))
      (renderAward award) := by
  rw [renderAward, if_pos htr]
  exact substr_appR _ (substr_appL _
    (substr_appR _ (substr_appL _ (substr_refl _))))

theorem substr_degree_in_edu (edu : Education) :
    Substr (parse_markdown_links edu.degree) (renderEdu edu) := by
  rw [renderEdu]
  exact substr_appR _ (substr_appR _ (substr_appR _ (substr_appR _
    (substr_appR _ (substr_appR _ (substr_appR _ (substr_appR _
      (substr_appL _ (substr_refl _)))))))))

theorem substr_graduation_in_edu (edu : Education) :
    Substr (convert_hyphens edu.graduation) (renderEdu edu) := by
  rw [renderEdu]
  exact substr_appR _ (substr_appR _ (substr_appR _ (substr_appR _
    (substr_appR _ (substr_appR _ (substr_appL _ (substr_refl _)))))))

theorem substr_institution_in_edu (edu : Education) :
    Substr (parse_markdown_links edu.institution) (renderEdu edu) := by
  rw [renderEdu]
  exact substr_appR _ (substr_appR _ (substr_appR _ (substr_appR _
    (substr_appL _ (substr_refl _)))))

/-- C3 (amended to the fields the template renders): the rendered markup
contains the company, title, location, award name, award description,
degree and institution fields transformed only by link conversion (which
preserves every hyphen: the hyphen-count conjunct) or verbatim, while the
role dates, award date and graduation fields appear through
`convert_hyphens`, which eliminates every hyphen-minus, and
`"2020-2022"` becomes `"2020–2022"`.  The project name and description do
not appear in the output at all (`c3_project_hyphen_cex`). -/
theorem c3_date_normalization_scope (r : Resume) (job : Job) (role : Role)
    (award : Award) (edu : Education) (s : String)
    (hj : job ∈ r.experience) (hr : role ∈ job.roles) (ha : award ∈ r.awards)
    (he : edu ∈ r.education) :
    Substr (parse_markdown_links job.company) (renderResume r) ∧
    Substr (parse_markdown_links role.title) (renderResume r) ∧
    Substr job.location (renderResume r) ∧
    Substr (parse_markdown_links award.name) (renderResume r) ∧
    (truthyS award.description = true →
      Substr (parse_markdown_links (award.description.getD ""))
        (renderResume r)) ∧
    Substr (parse_markdown_links edu.degree) (renderResume r) ∧
    Substr (parse_markdown_links edu.institution) (renderResume r) ∧
    hyphenCount (parse_markdown_links s) = hyphenCount s ∧
    Substr (convert_hyphens role.dates) (renderResume r) ∧
    Substr (convert_hyphens award.date) (renderResume r) ∧
    Substr (convert_hyphens edu.graduation) (renderResume r) ∧
    hyphenCount (convert_hyphens s) = 0 ∧
    convert_hyphens "2020-2022" = "2020–2022" := by
  have hrole := substr_trans (substr_role_in_job hr) (substr_job_in_resume hj)
  have haw := substr_award_in_resume ha
  have hed := substr_edu_in_resume he
  refine ⟨substr_trans (substr_company_in_role job role) hrole,
    substr_trans (substr_title_in_role job role) hrole,
    substr_trans (substr_location_in_role job role) hrole,
    substr_trans (substr_name_in_award award) haw,
    fun htr => substr_trans (substr_desc_in_award htr) haw,
    substr_trans (substr_degree_in_edu edu) hed,
    substr_trans (substr_institution_in_edu edu) hed,
    count_hyphen_parse s,
    substr_trans (substr_dates_in_role job role) hrole,
    substr_trans (substr_date_in_award award) haw,
    substr_trans (substr_graduation_in_edu edu) hed,
    count_hyphen_convert s,
    by decide⟩

/-- C3 witness: the sample role's hyphenated dates field appears
en-dashed in the sample resume's markup. -/
theorem c3_witness :
    Substr (convert_hyphens sampleRole.dates) (renderResume sampleResume) :=
  (c3_date_normalization_scope sampleResume sampleJob sampleRole sampleAward
    sampleEdu "x-y" (by decide) (by decide) (by decide)
    (by decide)).2.2.2.2.2.2.2.2.1


/-- C7: when the input path does not exist the run prints only the
missing-input diagnostic and performs no file write at all: neither output
step is attempted, nothing is written. -/
theorem c7_missing_input_no_outputs (env : Env) (h : env.inputExists = false) :
    (generate_resume env).printed = [missingMsg env.yaml_file] ∧
    (generate_resume env).files = [] ∧
    (generate_resume env).htmlWritten = none ∧
    (generate_resume env).pdfWritten = false ∧
    (generate_resume env).htmlAttempted = false ∧
    (generate_resume env).pdfAttempted = false := by
  simp [generate_resume, h]

/-- C7 witness. -/
theorem c7_witness : (generate_resume envMissing).files = [] :=
  (c7_missing_input_no_outputs envMissing rfl).2.1

/-- C10: on a loaded record the HTML write and the PDF step are both
attempted, in that order, independently: a successful HTML write leaves the
rendered markup as the file's new content even when the PDF step fails, a
failed HTML write does not stop the PDF step, and when both succeed the
writes happen in HTML-then-PDF order. -/
theorem c10_html_pdf_independent (env : Env) (d : Resume)
    (h1 : env.inputExists = true) (h2 : env.parsed = Except.ok d) :
    (generate_resume env).htmlAttempted = true ∧
    (generate_resume env).pdfAttempted = true ∧
    (env.htmlWriteOk = true →
      (generate_resume env).htmlWritten = some (renderResume d) ∧
      FileEvent.wroteHtml env.output_html (renderResume d) ∈
        (generate_resume env).files) ∧
    (env.htmlWriteOk = false →
      (generate_resume env).htmlWritten = none ∧
      (generate_resume env).pdfWritten = env.pdfOk) ∧
    (env.htmlWriteOk = true → env.pdfOk = false →
      (generate_resume env).files =
        [FileEvent.wroteHtml env.output_html (renderResume d)] ∧
      (generate_resume env).htmlWritten = some (renderResume d)) ∧
    (env.htmlWriteOk = true → env.pdfOk = true →
      (generate_resume env).files =
        [FileEvent.wroteHtml env.output_html (renderResume d),
          FileEvent.wrotePdf env.output_pdf]) := by
  have hne : ¬ env.inputExists = false := by rw [h1]; simp
  refine ⟨?_, ?_, ?_, ?_, ?_, ?_⟩
  · simp [generate_resume, hne, h2]
  · simp [generate_resume, hne, h2]
  · intro hh
    constructor
    · simp [generate_resume, hne, h2, hh]
    · by_cases hp : env.pdfOk <;> simp [generate_resume, hne, h2, hh, hp]
  · intro hh
    by_cases hp : env.pdfOk <;> simp [generate_resume, hne, h2, hh, hp]
  · intro hh hp
    simp [generate_resume, hne, h2, hh, hp]
  · intro hh hp
    simp [generate_resume, hne, h2, hh, hp]

/-- C10 witness: HTML content survives a failed PDF step. -/
theorem c10_witness :
    (generate_resume envPdfFail).htmlWritten = some (renderResume sampleResume) :=
  ((c10_html_pdf_independent envPdfFail sampleResume rfl rfl).2.2.2.2.1 rfl rfl).2

set_option maxRecDepth 8000 in
/-- C6: when an education entry omits both optional fields, its markup is
exactly the degree/graduation/institution lines with the four fixed
segments `edT1`, `edT2`/`edT3`, `edT4`, `edT5` — the GPA separator and the
whole coursework block are absent — and on the concrete such entry
`sampleEdu` the markup contains no "Coursework" label and no "• "
separator. -/
theorem c6_education_optionals_suppressed (edu : Education)
    (h1 : truthyS edu.gpa = false) (h2 : truthyL edu.coursework = false) :
    renderEdu edu =
      edT1 ++ parse_markdown_links edu.degree ++ edT2 ++
        convert_hyphens edu.graduation ++ edT3 ++
        parse_markdown_links edu.institution ++ edT4 ++ edT5 ∧
    ¬ Substr "Coursework" (renderEdu sampleEdu) ∧
    ¬ Substr "• " (renderEdu sampleEdu) := by
  refine ⟨?_, by decide, by decide⟩
  rw [renderEdu, if_neg (by simp [h1]), if_neg (by simp [h2])]
  rw [app_empty]
  rw [show (edT1 ++ parse_markdown_links edu.degree ++ edT2 ++
      convert_hyphens edu.graduation ++ edT3 ++
      parse_markdown_links edu.institution ++ "") =
    (edT1 ++ parse_markdown_links edu.degree ++ edT2 ++
      convert_hyphens edu.graduation ++ edT3 ++
      parse_markdown_links edu.institution) from app_empty _]

/-- C6 witness: the concrete optional-free entry renders to the plain
concatenation. -/
theorem c6_witness :
    renderEdu sampleEdu =
      edT1 ++ parse_markdown_links sampleEdu.degree ++ edT2 ++
        convert_hyphens sampleEdu.graduation ++ edT3 ++
        parse_markdown_links sampleEdu.institution ++ edT4 ++ edT5 :=
  (c6_education_optionals_suppressed sampleEdu rfl rfl).1

end ResumeGen
